import Mathlib

/-!
Shallow embedding of the ESP32 pinout viewer.

The embedding covers the static pin dataset (`esp32_pin_data.py`, `pin.py`)
and the navigation-history / highlight state machine of the main window
(`Pinout_GUI.py`): `show_pin_info`, `show_category_pins`, `_navigate_back`,
`_navigate_forward`, `_update_navigation_buttons`, `_clear_highlights`.
Qt rendering is abstracted to the observable state it produces: the info
panel content, the set of highlighted pin buttons and arrow indicators, and
the enabled flags of the back / forward buttons.
-/

namespace ESPPinout

/-- Pin record (`pin.py`): dataclass with display name, function list,
pin type and a note that defaults to the empty string. -/
structure Pin where
  name : String
  functions : List String
  pin_type : String
  note : String
deriving Repr, DecidableEq

/-- The full pin table built by `ESP32PinData._initialize_pins`
(`esp32_pin_data.py` lines 19-73), in dict insertion order, keyed by pin id. -/
def pinsList : List (String × Pin) := [
  ("GPIO0", ⟨"GPIO0", ["Boot button", "ADC2 –CH1–", "PWM"], "Input/Output", "Pull-down during boot to flash"⟩),
  ("GPIO1", ⟨"GPIO1 (TX0)", ["UART0 TX", "PWM"], "Input/Output", "Used for UART logging"⟩),
  ("GPIO2", ⟨"GPIO2", ["ADC2 –CH2–", "PWM"], "Input/Output", "Must be low to enter boot mode"⟩),
  ("GPIO3", ⟨"GPIO3 (RX0)", ["UART0 RX", "PWM"], "Input/Output", "Used for UART logging"⟩),
  ("GPIO4", ⟨"GPIO4", ["ADC2 –CH0–", "PWM"], "Input/Output", ""⟩),
  ("GPIO5", ⟨"GPIO5", ["VSPI –SS–", "PWM"], "Input/Output", "Must be high during boot"⟩),
  ("GPIO6", ⟨"GPIO6", ["Integrated SPI Flash SCK"], "Internal (do not use)", "Connected to SPI flash; using will cause boot failure"⟩),
  ("GPIO7", ⟨"GPIO7", ["Integrated SPI Flash SD0"], "Internal (do not use)", "Connected to SPI flash; using will cause boot failure"⟩),
  ("GPIO8", ⟨"GPIO8", ["Integrated SPI Flash SD1"], "Internal (do not use)", "Connected to SPI flash; using will cause boot failure"⟩),
  ("GPIO9", ⟨"GPIO9", ["Integrated SPI Flash SD2"], "Internal (do not use)", "Connected to SPI flash; using will cause boot failure"⟩),
  ("GPIO10", ⟨"GPIO10", ["Integrated SPI Flash SD3"], "Internal (do not use)", "Connected to SPI flash; using will cause boot failure"⟩),
  ("GPIO11", ⟨"GPIO11", ["Integrated SPI Flash CMD"], "Internal (do not use)", "Connected to SPI flash; using will cause boot failure"⟩),
  ("GPIO12", ⟨"GPIO12", ["ADC2 –CH5–", "HSPI –MISO–", "PWM"], "Input only", "Must be low during boot &  , Only Digital if WiFi is used"⟩),
  ("GPIO13", ⟨"GPIO13", ["ADC2 –CH4–", "HSPI –MOSI–", "PWM"], "Input/Output", "Only Digital if WiFi is used"⟩),
  ("GPIO14", ⟨"GPIO14", ["ADC2 –CH6–", "HSPI –CLK–", "PWM"], "Input/Output", "Only Digital if WiFi is used"⟩),
  ("GPIO15", ⟨"GPIO15", ["ADC2 –CH3–", "HSPI –SS–", "PWM"], "Input/Output", "Must be low during boot &  , Only Digital if WiFi is used"⟩),
  ("GPIO16", ⟨"GPIO16", ["UART2 –RX–", "PWM"], "Input/Output", ""⟩),
  ("GPIO17", ⟨"GPIO17", ["UART2 –TX–", "PWM"], "Input/Output", ""⟩),
  ("GPIO18", ⟨"GPIO18", ["VSPI –CLK–", "PWM"], "Input/Output", ""⟩),
  ("GPIO19", ⟨"GPIO19", ["VSPI –MISO–", "PWM"], "Input/Output", ""⟩),
  ("GPIO21", ⟨"GPIO21", ["I2C –SDA–", "PWM"], "Input/Output", ""⟩),
  ("GPIO22", ⟨"GPIO22", ["I2C –SCL–", "PWM"], "Input/Output", ""⟩),
  ("GPIO23", ⟨"GPIO23", ["VSPI –MOSI–", "PWM"], "Input/Output", ""⟩),
  ("GPIO25", ⟨"GPIO25", ["DAC1", "ADC2 –CH8–", "PWM"], "Input/Output", "Only Digital if WiFi is used"⟩),
  ("GPIO26", ⟨"GPIO26", ["DAC2", "ADC2 –CH9–", "PWM"], "Input/Output", "Only Digital if WiFi is used"⟩),
  ("GPIO27", ⟨"GPIO27", ["ADC2 –CH7–", "PWM"], "Input/Output", "Only Digital if WiFi is used"⟩),
  ("GPIO32", ⟨"GPIO32", ["ADC1 –CH4–", "PWM"], "Input/Output", ""⟩),
  ("GPIO33", ⟨"GPIO33", ["ADC1 –CH5–", "PWM"], "Input/Output", ""⟩),
  ("GPIO34", ⟨"GPIO34", ["ADC1 –CH6–"], "Input only", ""⟩),
  ("GPIO35", ⟨"GPIO35", ["ADC1 –CH7–"], "Input only", ""⟩),
  ("GPIO36", ⟨"GPIO36 (VP)", ["ADC1 –CH0–"], "Input only", ""⟩),
  ("GPIO39", ⟨"GPIO39 (VN)", ["ADC1 –CH3–"], "Input only", ""⟩),
  ("EN", ⟨"EN (Enable)", ["Reset"], "Input", "Active high to enable chip"⟩),
  ("VIN", ⟨"VIN", ["Power"], "Power", "Typically 5V input"⟩),
  ("3V3", ⟨"3.3V", ["Power"], "Power", "3.3V output/input"⟩),
  ("GND2", ⟨"GND", ["Ground"], "Power", ""⟩),
  ("GND3", ⟨"GND", ["Ground"], "Power", ""⟩),
  ("GND1", ⟨"GND", ["Ground"], "Power", ""⟩)]

/-- Dict lookup `self.pin_data.pins.get(pin_id)`. -/
def pinsGet (pinId : String) : Option Pin :=
  (pinsList.find? (fun e => e.1 == pinId)).map (fun e => e.2)

/-- `self.i2c_pins` (`esp32_pin_data.py` line 11). -/
def i2c_pins : List String := ["GPIO21", "GPIO22"]

/-- `self.adc_pins` (line 12). -/
def adc_pins : List String :=
  ["GPIO32", "GPIO33", "GPIO34", "GPIO35", "GPIO36", "GPIO39", "GPIO25",
   "GPIO26", "GPIO27", "GPIO12", "GPIO13", "GPIO14", "GPIO15"]

/-- `self.spi_pins` (line 13). -/
def spi_pins : List String :=
  ["GPIO18", "GPIO19", "GPIO23", "GPIO5", "GPIO12", "GPIO13", "GPIO14", "GPIO15"]

/-- `self.pwm_pins` (line 14). -/
def pwm_pins : List String :=
  ["GPIO0", "GPIO1", "GPIO2", "GPIO3", "GPIO4", "GPIO5", "GPIO12", "GPIO13",
   "GPIO14", "GPIO15", "GPIO16", "GPIO17", "GPIO18", "GPIO19", "GPIO21",
   "GPIO22", "GPIO23", "GPIO25", "GPIO26", "GPIO27", "GPIO32", "GPIO33"]

/-- `self.power_pins` (line 15). -/
def power_pins : List String := ["3V3", "VIN", "GND1", "GND2", "GND3"]

/-- `self.input_only_pins` (line 16): comprehension over the pin dict in
insertion order, keeping ids whose pin type is "Input only". -/
def input_only_pins : List String :=
  (pinsList.filter (fun e => e.2.pin_type == "Input only")).map (fun e => e.1)

/-- `self.in_out_pins` (line 17): ids whose pin type is "Input/Output". -/
def in_out_pins : List String :=
  (pinsList.filter (fun e => e.2.pin_type == "Input/Output")).map (fun e => e.1)

/-- The keys of `_get_pin_positions` (`Pinout_GUI.py` lines 332-371), which
become the keys of `self.pin_buttons`, in dict insertion order. -/
def pinPositionKeys : List String :=
  ["GPIO0", "GPIO1", "GPIO2", "GPIO3", "GPIO4", "GPIO5", "GPIO6", "GPIO7",
   "GPIO8", "GPIO9", "GPIO10", "GPIO11", "GPIO12", "GPIO13", "GPIO14",
   "GPIO15", "GPIO16", "GPIO17", "GPIO18", "GPIO19", "GPIO21", "GPIO22",
   "GPIO23", "GPIO25", "GPIO26", "GPIO27", "GPIO32", "GPIO33", "GPIO34",
   "GPIO35", "GPIO36", "GPIO39", "EN", "VIN", "GND1", "GND2", "GND3", "3V3"]

/-- A history entry `(type, data)`: either `(pin, pin_id)` or
`(category, (category_key, category_name))`. -/
inductive ViewEntry where
  | pin (pinId : String)
  | category (key : String) (name : String)
deriving Repr, DecidableEq

/-- What the info box currently displays: a single pin detail panel or a
category list panel. -/
inductive InfoView where
  | pinView (pinId : String) (p : Pin)
  | categoryView (name : String) (pins : List String)
deriving Repr, DecidableEq

/-- The mutable state of `PinoutApp` relevant to navigation and
highlighting: `pin_history`, `history_index` (a Python int, initially -1),
the highlighted buttons and arrow labels, the enabled flags of the two
navigation buttons, and the info box content. -/
structure AppState where
  pin_history : List ViewEntry
  history_index : Int
  highlighted_buttons : List String
  arrow_labels : List String
  back_enabled : Bool
  forward_enabled : Bool
  info_panel : Option InfoView
deriving Repr, DecidableEq

/-- State right after `PinoutApp.__init__`: empty history, index -1, no
highlights, both navigation buttons disabled, placeholder info box. -/
def initState : AppState :=
  ⟨[], -1, [], [], false, false, none⟩

/-- Python list slice `l[:k]` for an int bound `k` (negative bounds count
from the end, clamping at 0). -/
def pySliceTo {α : Type} (l : List α) (k : Int) : List α :=
  if 0 ≤ k then l.take k.toNat else l.take ((l.length : Int) + k).toNat

/-- `_clear_highlights` (lines 532-542): restore every highlighted button,
empty `highlighted_buttons`, delete and empty `arrow_labels`. -/
def clear_highlights (s : AppState) : AppState :=
  { s with highlighted_buttons := [], arrow_labels := [] }

/-- `_update_navigation_buttons` (lines 629-632). -/
def update_navigation_buttons (s : AppState) : AppState :=
  { s with back_enabled := decide (0 < s.history_index),
           forward_enabled := decide (s.history_index < (s.pin_history.length : Int) - 1) }

/-- The history push block shared verbatim by `show_pin_info`
(lines 388-399) and `show_category_pins` (lines 448-459): truncate the
forward branch when not at the tail, append the entry, move the index to
the tail, update the navigation buttons. -/
def pushHistory (entry : ViewEntry) (s : AppState) : AppState :=
  let hist0 :=
    if s.history_index < (s.pin_history.length : Int) - 1 then
      pySliceTo s.pin_history (s.history_index + 1)
    else s.pin_history
  let hist := hist0 ++ [entry]
  update_navigation_buttons
    { s with pin_history := hist, history_index := (hist.length : Int) - 1 }

/-- `show_pin_info` (lines 383-441): clear highlights; if not navigating,
push a `(pin, pin_id)` entry; look the pin up with `dict.get` and render
its detail panel only when the lookup succeeds. -/
def show_pin_info (pinId : String) (from_navigation : Bool) (s : AppState) : AppState :=
  let s1 := clear_highlights s
  let s2 := if from_navigation then s1 else pushHistory (ViewEntry.pin pinId) s1
  match pinsGet pinId with
  | some p => { s2 with info_panel := some (InfoView.pinView pinId p) }
  | none => s2

/-- Python `str.startswith`, on the character lists underlying the
strings (kernel-reducible, unlike `String.startsWith`). -/
def pyStartswith (s p : String) : Bool :=
  p.data.isPrefixOf s.data

/-- The category dispatch of `show_category_pins` (lines 461-481): known
keys map to their membership lists; anything else falls into the `else`
branch computing the uncategorized GPIO pins. -/
def categoryPins (key : String) : List String :=
  if key == "i2c" then i2c_pins
  else if key == "adc" then adc_pins
  else if key == "spi" then spi_pins
  else if key == "pwm" then pwm_pins
  else if key == "power" then power_pins
  else if key == "Input only" then input_only_pins
  else if key == "Input/Output" then in_out_pins
  else
    let all_categorized :=
      i2c_pins ++ adc_pins ++ spi_pins ++ pwm_pins ++ power_pins ++
        input_only_pins ++ in_out_pins
    pinPositionKeys.filter (fun pinId =>
      !(all_categorized.contains pinId) && pyStartswith pinId ("GPIO"))

/-- `show_category_pins` (lines 443-491): clear highlights; if not
navigating, push a `(category, (key, name))` entry; resolve the category
pin list; highlight each listed pin that has a button (appending it to the
highlight and arrow lists); display the category panel. -/
def show_category_pins (key : String) (name : String) (from_navigation : Bool)
    (s : AppState) : AppState :=
  let s1 := clear_highlights s
  let s2 := if from_navigation then s1 else pushHistory (ViewEntry.category key name) s1
  let pins := categoryPins key
  let presentPins := pins.filter (fun pinId => pinPositionKeys.contains pinId)
  { s2 with highlighted_buttons := s2.highlighted_buttons ++ presentPins,
            arrow_labels := s2.arrow_labels ++ presentPins,
            info_panel := some (InfoView.categoryView name pins) }

/-- The `view_type` dispatch shared by `_navigate_back` and
`_navigate_forward` (lines 607-611 and 621-625): replay a history entry by
re-rendering it with `from_navigation=True`. -/
def replayEntry (e : ViewEntry) (s : AppState) : AppState :=
  match e with
  | ViewEntry.pin pinId => show_pin_info pinId true s
  | ViewEntry.category key name => show_category_pins key name true s

/-- `_navigate_back` (lines 601-613): when `history_index > 0`, decrement
the index, replay the entry now at the index with `from_navigation=True`,
and update the navigation buttons; otherwise do nothing. -/
def navigate_back (s : AppState) : AppState :=
  if 0 < s.history_index then
    let s1 := { s with history_index := s.history_index - 1 }
    let s2 :=
      match s1.pin_history.get? s1.history_index.toNat with
      | some e => replayEntry e s1
      | none => s1
    update_navigation_buttons s2
  else s

/-- `_navigate_forward` (lines 615-627): symmetric to `_navigate_back` at
the right end of the history. -/
def navigate_forward (s : AppState) : AppState :=
  if s.history_index < (s.pin_history.length : Int) - 1 then
    let s1 := { s with history_index := s.history_index + 1 }
    let s2 :=
      match s1.pin_history.get? s1.history_index.toNat with
      | some e => replayEntry e s1
      | none => s1
    update_navigation_buttons s2
  else s

/-- One user interaction: a direct pin click, a direct category click, or a
back / forward request. -/
inductive Op where
  | selectPin (pinId : String)
  | selectCategory (key : String) (name : String)
  | back
  | forward
deriving Repr, DecidableEq

/-- Dispatch one interaction to the corresponding handler. -/
def step (s : AppState) (op : Op) : AppState :=
  match op with
  | Op.selectPin pinId => show_pin_info pinId false s
  | Op.selectCategory key name => show_category_pins key name false s
  | Op.back => navigate_back s
  | Op.forward => navigate_forward s

/-- Run a sequence of interactions from a state. -/
def run (s : AppState) (ops : List Op) : AppState :=
  ops.foldl step s

/-- The panel produced by replaying a history entry over a previous panel:
a pin entry renders its detail panel when the id is in the dataset and
leaves the panel alone otherwise; a category entry always renders its
category panel. -/
def replayPanel (e : ViewEntry) (old : Option InfoView) : Option InfoView :=
  match e with
  | ViewEntry.pin pinId =>
    match pinsGet pinId with
    | some p => some (InfoView.pinView pinId p)
    | none => old
  | ViewEntry.category key name => some (InfoView.categoryView name (categoryPins key))

section HelperLemmas

@[simp]
theorem update_nav_pin_history (s : AppState) :
    (update_navigation_buttons s).pin_history = s.pin_history := rfl

@[simp]
theorem update_nav_history_index (s : AppState) :
    (update_navigation_buttons s).history_index = s.history_index := rfl

@[simp]
theorem update_nav_info_panel (s : AppState) :
    (update_navigation_buttons s).info_panel = s.info_panel := rfl

@[simp]
theorem update_nav_back_enabled (s : AppState) :
    (update_navigation_buttons s).back_enabled = decide (0 < s.history_index) := rfl

@[simp]
theorem update_nav_forward_enabled (s : AppState) :
    (update_navigation_buttons s).forward_enabled
      = decide (s.history_index < (s.pin_history.length : Int) - 1) := rfl

@[simp]
theorem clear_highlights_pin_history (s : AppState) :
    (clear_highlights s).pin_history = s.pin_history := rfl

@[simp]
theorem clear_highlights_history_index (s : AppState) :
    (clear_highlights s).history_index = s.history_index := rfl

@[simp]
theorem clear_highlights_info_panel (s : AppState) :
    (clear_highlights s).info_panel = s.info_panel := rfl

@[simp]
theorem clear_highlights_highlighted (s : AppState) :
    (clear_highlights s).highlighted_buttons = [] := rfl

@[simp]
theorem clear_highlights_arrows (s : AppState) :
    (clear_highlights s).arrow_labels = [] := rfl

/-- The history produced by the shared push block. -/
theorem pushHistory_pin_history (e : ViewEntry) (s : AppState) :
    (pushHistory e s).pin_history
      = (if s.history_index < (s.pin_history.length : Int) - 1 then
          pySliceTo s.pin_history (s.history_index + 1)
        else s.pin_history) ++ [e] := rfl

/-- The push block always leaves the index at the new tail. -/
theorem pushHistory_history_index (e : ViewEntry) (s : AppState) :
    (pushHistory e s).history_index
      = ((pushHistory e s).pin_history.length : Int) - 1 := rfl

theorem pushHistory_info_panel (e : ViewEntry) (s : AppState) :
    (pushHistory e s).info_panel = s.info_panel := rfl

/-- Rendering with `from_navigation=True` never touches the history. -/
theorem show_pin_info_nav_fields (pinId : String) (s : AppState) :
    (show_pin_info pinId true s).pin_history = s.pin_history
    ∧ (show_pin_info pinId true s).history_index = s.history_index
    ∧ (show_pin_info pinId true s).info_panel
        = replayPanel (ViewEntry.pin pinId) s.info_panel := by
  cases h : pinsGet pinId <;>
    simp [show_pin_info, replayPanel, h]

theorem show_category_nav_fields (key name : String) (s : AppState) :
    (show_category_pins key name true s).pin_history = s.pin_history
    ∧ (show_category_pins key name true s).history_index = s.history_index
    ∧ (show_category_pins key name true s).info_panel
        = replayPanel (ViewEntry.category key name) s.info_panel := by
  simp [show_category_pins, replayPanel]

theorem replayEntry_fields (e : ViewEntry) (s : AppState) :
    (replayEntry e s).pin_history = s.pin_history
    ∧ (replayEntry e s).history_index = s.history_index
    ∧ (replayEntry e s).info_panel = replayPanel e s.info_panel := by
  cases e with
  | pin pinId => exact show_pin_info_nav_fields pinId s
  | category key name => exact show_category_nav_fields key name s

@[simp]
theorem replayEntry_pin_history (e : ViewEntry) (s : AppState) :
    (replayEntry e s).pin_history = s.pin_history := (replayEntry_fields e s).1

@[simp]
theorem replayEntry_history_index (e : ViewEntry) (s : AppState) :
    (replayEntry e s).history_index = s.history_index := (replayEntry_fields e s).2.1

@[simp]
theorem replayEntry_info_panel (e : ViewEntry) (s : AppState) :
    (replayEntry e s).info_panel = replayPanel e s.info_panel := (replayEntry_fields e s).2.2

/-- Unfolding `navigate_back` when the guard holds and the decremented
index is in range. -/
theorem navigate_back_fields (s : AppState) (e : ViewEntry) (h : 0 < s.history_index)
    (he : s.pin_history.get? (s.history_index - 1).toNat = some e) :
    (navigate_back s).pin_history = s.pin_history
    ∧ (navigate_back s).history_index = s.history_index - 1
    ∧ (navigate_back s).info_panel = replayPanel e s.info_panel := by
  have he3 : s.pin_history[s.history_index.toNat - 1]? = some e := by
    simpa using he
  simp [navigate_back, h, he3]

/-- Unfolding `navigate_forward` when the guard holds and the incremented
index is in range. -/
theorem navigate_forward_fields (s : AppState) (e : ViewEntry)
    (h : s.history_index < (s.pin_history.length : Int) - 1)
    (he : s.pin_history.get? (s.history_index + 1).toNat = some e) :
    (navigate_forward s).pin_history = s.pin_history
    ∧ (navigate_forward s).history_index = s.history_index + 1
    ∧ (navigate_forward s).info_panel = replayPanel e s.info_panel := by
  have he3 : s.pin_history[(s.history_index + 1).toNat]? = some e := by
    simpa using he
  simp [navigate_forward, h, he3]

theorem navigate_back_noop (s : AppState) (h : ¬ 0 < s.history_index) :
    navigate_back s = s := by
  simp [navigate_back, h]

theorem navigate_forward_noop (s : AppState)
    (h : ¬ s.history_index < (s.pin_history.length : Int) - 1) :
    navigate_forward s = s := by
  simp [navigate_forward, h]

theorem navigate_back_history (s : AppState) :
    (navigate_back s).pin_history = s.pin_history := by
  by_cases h : 0 < s.history_index
  · cases hm : s.pin_history.get? (s.history_index - 1).toNat with
    | some e => exact (navigate_back_fields s e h hm).1
    | none =>
      have hm3 : s.pin_history[s.history_index.toNat - 1]? = none := by
        simpa using hm
      simp [navigate_back, h, hm3]
  · rw [navigate_back_noop s h]

theorem navigate_forward_history (s : AppState) :
    (navigate_forward s).pin_history = s.pin_history := by
  by_cases h : s.history_index < (s.pin_history.length : Int) - 1
  · cases hm : s.pin_history.get? (s.history_index + 1).toNat with
    | some e => exact (navigate_forward_fields s e h hm).1
    | none =>
      have hm3 : s.pin_history[(s.history_index + 1).toNat]? = none := by
        simpa using hm
      simp [navigate_forward, h, hm3]
  · rw [navigate_forward_noop s h]

/-- The invariant of claim C3: each navigation button is enabled exactly
when the corresponding move is possible. -/
def NavButtonsInv (s : AppState) : Prop :=
  s.back_enabled = decide (0 < s.history_index)
  ∧ s.forward_enabled = decide (s.history_index < (s.pin_history.length : Int) - 1)

theorem inv_update (s : AppState) : NavButtonsInv (update_navigation_buttons s) := by
  constructor <;> simp

theorem inv_step (s : AppState) (op : Op) (h : NavButtonsInv s) :
    NavButtonsInv (step s op) := by
  cases op with
  | selectPin pinId =>
    have base : NavButtonsInv (pushHistory (ViewEntry.pin pinId) (clear_highlights s)) :=
      inv_update _
    cases hp : pinsGet pinId with
    | some p =>
      show NavButtonsInv (show_pin_info pinId false s)
      unfold show_pin_info
      rw [hp]
      exact base
    | none =>
      show NavButtonsInv (show_pin_info pinId false s)
      unfold show_pin_info
      rw [hp]
      exact base
  | selectCategory key name =>
    exact inv_update _
  | back =>
    show NavButtonsInv (navigate_back s)
    by_cases h0 : 0 < s.history_index
    · unfold navigate_back
      rw [if_pos h0]
      exact inv_update _
    · rw [navigate_back_noop s h0]
      exact h
  | forward =>
    show NavButtonsInv (navigate_forward s)
    by_cases h0 : s.history_index < (s.pin_history.length : Int) - 1
    · unfold navigate_forward
      rw [if_pos h0]
      exact inv_update _
    · rw [navigate_forward_noop s h0]
      exact h

theorem inv_run (ops : List Op) (s : AppState) (h : NavButtonsInv s) :
    NavButtonsInv (run s ops) := by
  induction ops generalizing s with
  | nil => exact h
  | cons op rest ih => exact ih (step s op) (inv_step s op h)

@[simp]
theorem pushHistory_highlighted (e : ViewEntry) (s : AppState) :
    (pushHistory e s).highlighted_buttons = s.highlighted_buttons := rfl

@[simp]
theorem pushHistory_arrows (e : ViewEntry) (s : AppState) :
    (pushHistory e s).arrow_labels = s.arrow_labels := rfl

end HelperLemmas

/-- C2: for every well-formed history state, `_navigate_back` decrements
the index and re-renders the entry now at the index when `index > 0`, and
is the identity otherwise; `_navigate_forward` is symmetric at
`index < length - 1`; neither ever changes the history sequence, and
replaying with `from_navigation=True` never records into the history. -/
theorem C2_navigation_frame (s : AppState)
    (hlo : -1 ≤ s.history_index)
    (hhi : s.history_index < (s.pin_history.length : Int)) :
    (navigate_back s).pin_history = s.pin_history
    ∧ (navigate_forward s).pin_history = s.pin_history
    ∧ (¬ 0 < s.history_index → navigate_back s = s)
    ∧ (¬ s.history_index < (s.pin_history.length : Int) - 1 → navigate_forward s = s)
    ∧ (0 < s.history_index →
        (navigate_back s).history_index = s.history_index - 1
        ∧ ∃ e, s.pin_history.get? (s.history_index - 1).toNat = some e
            ∧ (navigate_back s).info_panel = replayPanel e s.info_panel)
    ∧ (s.history_index < (s.pin_history.length : Int) - 1 →
        (navigate_forward s).history_index = s.history_index + 1
        ∧ ∃ e, s.pin_history.get? (s.history_index + 1).toNat = some e
            ∧ (navigate_forward s).info_panel = replayPanel e s.info_panel)
    ∧ (∀ pinId, (show_pin_info pinId true s).pin_history = s.pin_history
          ∧ (show_pin_info pinId true s).history_index = s.history_index)
    ∧ (∀ key name, (show_category_pins key name true s).pin_history = s.pin_history
          ∧ (show_category_pins key name true s).history_index = s.history_index) := by
  refine ⟨navigate_back_history s, navigate_forward_history s,
    navigate_back_noop s, navigate_forward_noop s, ?_, ?_, ?_, ?_⟩
  · intro h0
    have hlt : (s.history_index - 1).toNat < s.pin_history.length := by omega
    have he := List.get?_eq_get hlt
    exact ⟨(navigate_back_fields s _ h0 he).2.1,
      s.pin_history.get ⟨(s.history_index - 1).toNat, hlt⟩, he,
      (navigate_back_fields s _ h0 he).2.2⟩
  · intro h0
    have hlt : (s.history_index + 1).toNat < s.pin_history.length := by omega
    have he := List.get?_eq_get hlt
    exact ⟨(navigate_forward_fields s _ h0 he).2.1,
      s.pin_history.get ⟨(s.history_index + 1).toNat, hlt⟩, he,
      (navigate_forward_fields s _ h0 he).2.2⟩
  · intro pinId
    exact ⟨(show_pin_info_nav_fields pinId s).1, (show_pin_info_nav_fields pinId s).2.1⟩
  · intro key name
    exact ⟨(show_category_nav_fields key name s).1, (show_category_nav_fields key name s).2.1⟩

/-- Witness for C2 at a concrete two-entry history with index 1. -/
theorem C2_witness :
    (navigate_back ⟨[ViewEntry.pin ("GPIO4"), ViewEntry.category ("adc") ("ADC Pins")], 1,
        [], [], true, false, none⟩).pin_history
      = [ViewEntry.pin ("GPIO4"), ViewEntry.category ("adc") ("ADC Pins")] := by
  have h := C2_navigation_frame
    ⟨[ViewEntry.pin ("GPIO4"), ViewEntry.category ("adc") ("ADC Pins")], 1,
     [], [], true, false, none⟩ (by decide) (by decide)
  simpa using h.1

/-- C3: starting from the initial empty-history state, after any sequence
of direct view recordings and back / forward navigations, the back button
is enabled exactly when `index > 0` and the forward button exactly when
`index < length - 1`. -/
theorem C3_buttons_match_index (ops : List Op) :
    ((run initState ops).back_enabled = true ↔ 0 < (run initState ops).history_index)
    ∧ ((run initState ops).forward_enabled = true
        ↔ (run initState ops).history_index
            < ((run initState ops).pin_history.length : Int) - 1) := by
  obtain ⟨h1, h2⟩ := inv_run ops initState (by constructor <;> rfl)
  constructor
  · rw [h1]
    simp
  · rw [h2]
    simp

/-- C1: recording a new view by direct interaction while `index < length-1`
discards exactly the entries after the index, appends the new entry and
moves the index to the new tail, both for `show_pin_info` and for
`show_category_pins`; in particular, from history `[A,B,C]` at index 2,
two back navigations followed by a direct `show_pin_info` of `D` yield
history `[A,D]` at index 1. -/
theorem C1_record_truncates_forward_branch (s : AppState) (d key name : String)
    (hlo : -1 ≤ s.history_index)
    (hhi : s.history_index < (s.pin_history.length : Int) - 1) :
    (show_pin_info d false s).pin_history
      = s.pin_history.take (s.history_index + 1).toNat ++ [ViewEntry.pin d]
    ∧ (show_pin_info d false s).history_index
      = ((show_pin_info d false s).pin_history.length : Int) - 1
    ∧ (show_category_pins key name false s).pin_history
      = s.pin_history.take (s.history_index + 1).toNat ++ [ViewEntry.category key name]
    ∧ (show_category_pins key name false s).history_index
      = ((show_category_pins key name false s).pin_history.length : Int) - 1
    ∧ (run ⟨[ViewEntry.pin ("A"), ViewEntry.pin ("B"), ViewEntry.pin ("C")], 2,
            [], [], true, false, none⟩
        [Op.back, Op.back, Op.selectPin ("D")]).pin_history
      = [ViewEntry.pin ("A"), ViewEntry.pin ("D")]
    ∧ (run ⟨[ViewEntry.pin ("A"), ViewEntry.pin ("B"), ViewEntry.pin ("C")], 2,
            [], [], true, false, none⟩
        [Op.back, Op.back, Op.selectPin ("D")]).history_index = 1 := by
  have hslice : pySliceTo s.pin_history (s.history_index + 1)
      = s.pin_history.take (s.history_index + 1).toNat := by
    have : (0 : Int) ≤ s.history_index + 1 := by omega
    simp [pySliceTo, this]
  have hpush : ∀ e : ViewEntry, (pushHistory e (clear_highlights s)).pin_history
      = s.pin_history.take (s.history_index + 1).toNat ++ [e] := by
    intro e
    rw [pushHistory_pin_history]
    simp [hhi, hslice]
  have hpin_hist : (show_pin_info d false s).pin_history
      = s.pin_history.take (s.history_index + 1).toNat ++ [ViewEntry.pin d] := by
    cases h : pinsGet d <;> simp [show_pin_info, h, hpush]
  have hpin_idx : (show_pin_info d false s).history_index
      = ((show_pin_info d false s).pin_history.length : Int) - 1 := by
    cases h : pinsGet d <;>
      simp [show_pin_info, h, pushHistory_history_index]
  have hcat_hist : (show_category_pins key name false s).pin_history
      = s.pin_history.take (s.history_index + 1).toNat ++ [ViewEntry.category key name] := by
    simp [show_category_pins, hpush]
  have hcat_idx : (show_category_pins key name false s).history_index
      = ((show_category_pins key name false s).pin_history.length : Int) - 1 := by
    simp [show_category_pins, pushHistory_history_index]
  exact ⟨hpin_hist, hpin_idx, hcat_hist, hcat_idx, by decide, by decide⟩

/-- Witness for C1 at the concrete state `[A,B,C]` with index 0. -/
theorem C1_witness :
    (show_pin_info ("D") false
        ⟨[ViewEntry.pin ("A"), ViewEntry.pin ("B"), ViewEntry.pin ("C")], 0,
         [], [], false, true, none⟩).pin_history
      = [ViewEntry.pin ("A"), ViewEntry.pin ("D")] := by
  have h := C1_record_truncates_forward_branch
    ⟨[ViewEntry.pin ("A"), ViewEntry.pin ("B"), ViewEntry.pin ("C")], 0,
     [], [], false, true, none⟩ ("D") ("adc") ("ADC Pins") (by decide) (by decide)
  simpa using h.1

/-- C4 counterexample: for the absent id GPIO99, a direct `show_pin_info`
call completes normally and renders nothing (the info panel stays empty)
instead of raising: the code looks the id up with `dict.get` and skips the
rendering block when the result is falsy; no `NotFoundError` exists in the
code. -/
theorem C4_counterexample :
    pinsGet ("GPIO99") = none
    ∧ show_pin_info ("GPIO99") false initState
        = ⟨[ViewEntry.pin ("GPIO99")], 0, [], [], false, false, none⟩ := by
  decide

/-- C4 (amended): for every pin id absent from the dataset,
`show_pin_info` does not fail and silently leaves the info panel
unchanged: the lookup uses `dict.get` and the `if pin:` guard skips
rendering; no exception is raised. -/
theorem C4_missing_pin_renders_nothing (pinId : String) (b : Bool) (s : AppState)
    (h : pinsGet pinId = none) :
    (show_pin_info pinId b s).info_panel = s.info_panel := by
  cases b <;> simp [show_pin_info, h, pushHistory_info_panel]

/-- Witness for C4 at the absent id GPIO99. -/
theorem C4_witness :
    pinsGet ("GPIO99") = none
    ∧ (show_pin_info ("GPIO99") false initState).info_panel = initState.info_panel :=
  ⟨by decide, C4_missing_pin_renders_nothing ("GPIO99") false initState (by decide)⟩

/-- C5 counterexample: the unknown category key `bogus` does not yield the
empty pin list; it falls into the `else` branch of `show_category_pins` and
yields the uncategorized GPIO pins. -/
theorem C5_counterexample :
    categoryPins ("bogus") = ["GPIO6", "GPIO7", "GPIO8", "GPIO9", "GPIO10", "GPIO11"]
    ∧ categoryPins ("bogus") ≠ ([] : List String) := by
  decide

/-- C5 (amended): for every category key outside the known set, the
dispatch falls through to the `else` branch, returning the same
uncategorized-GPIO list as the `default` key — the non-empty
`[GPIO6..GPIO11]` — rather than failing or returning the empty list. -/
theorem C5_unknown_key_defaults (key : String)
    (h : key ∉ (["i2c", "adc", "spi", "pwm", "power", "Input only", "Input/Output"] : List String)) :
    categoryPins key = categoryPins ("default")
    ∧ categoryPins key = ["GPIO6", "GPIO7", "GPIO8", "GPIO9", "GPIO10", "GPIO11"] := by
  simp only [List.mem_cons, not_or] at h
  obtain ⟨h1, h2, h3, h4, h5, h6, h7, -⟩ := h
  have n1 : ¬ ((key == "i2c") = true) := by simpa using h1
  have n2 : ¬ ((key == "adc") = true) := by simpa using h2
  have n3 : ¬ ((key == "spi") = true) := by simpa using h3
  have n4 : ¬ ((key == "pwm") = true) := by simpa using h4
  have n5 : ¬ ((key == "power") = true) := by simpa using h5
  have n6 : ¬ ((key == "Input only") = true) := by simpa using h6
  have n7 : ¬ ((key == "Input/Output") = true) := by simpa using h7
  have hk : categoryPins key = ["GPIO6", "GPIO7", "GPIO8", "GPIO9", "GPIO10", "GPIO11"] := by
    unfold categoryPins
    rw [if_neg n1, if_neg n2, if_neg n3, if_neg n4, if_neg n5, if_neg n6, if_neg n7]
    decide
  exact ⟨hk.trans (by decide), hk⟩

/-- Witness for C5 at the unknown key `bogus`. -/
theorem C5_witness :
    categoryPins ("bogus") = categoryPins ("default") :=
  (C5_unknown_key_defaults ("bogus") (by decide)).1

/-- C6 counterexample: the input-only category has five pins and does not
contain GPIO15, whose pin type in the table is Input/Output — so the
claimed six-element set `{GPIO34,GPIO35,GPIO36,GPIO39,GPIO12,GPIO15}` is
wrong in any order. -/
theorem C6_counterexample :
    ("GPIO15") ∉ categoryPins ("Input only")
    ∧ (categoryPins ("Input only")).length = 5
    ∧ (pinsGet ("GPIO15")).map Pin.pin_type = some ("Input/Output") := by
  decide

/-- C6 (amended): the input-only category is exactly the ids whose pin
type is "Input only", namely `[GPIO12, GPIO34, GPIO35, GPIO36, GPIO39]`
(already lexicographically sorted); GPIO15 is not among them. -/
theorem C6_input_only_category (e : String × Pin) (he : e ∈ pinsList) :
    categoryPins ("Input only") = ["GPIO12", "GPIO34", "GPIO35", "GPIO36", "GPIO39"]
    ∧ (e.1 ∈ categoryPins ("Input only") ↔ e.2.pin_type = "Input only") := by
  have hall : ∀ x ∈ pinsList,
      (x.1 ∈ categoryPins ("Input only") ↔ x.2.pin_type = "Input only") := by
    decide
  exact ⟨by decide, hall e he⟩

/-- Witness for C6 at the GPIO34 table entry. -/
theorem C6_witness :
    categoryPins ("Input only") = ["GPIO12", "GPIO34", "GPIO35", "GPIO36", "GPIO39"]
    ∧ (("GPIO34") ∈ categoryPins ("Input only")
        ↔ (⟨"GPIO34", ["ADC1 –CH6–"], "Input only", ""⟩ : Pin).pin_type = "Input only") :=
  C6_input_only_category ("GPIO34", ⟨"GPIO34", ["ADC1 –CH6–"], "Input only", ""⟩) (by decide)

/-- The default category as the claim words it: the pin identifiers with
the GPIO prefix that are members of none of the i2c, adc, spi, pwm or
power lists. Stated from the claim for comparison with the code
`categoryPins`. -/
def specDefaultCategory : List String :=
  pinPositionKeys.filter (fun pinId =>
    pyStartswith pinId ("GPIO") && !(i2c_pins.contains pinId)
      && !(adc_pins.contains pinId) && !(spi_pins.contains pinId)
      && !(pwm_pins.contains pinId) && !(power_pins.contains pinId))

/-- C7: the default category equals the claimed characterization — GPIO
prefix and not a member of i2c / adc / spi / pwm / power — and every pin in
it has the GPIO prefix and is in none of those lists; EN, VIN and GND1
never appear. -/
theorem C7_default_category (p : String) (hp : p ∈ categoryPins ("default")) :
    categoryPins ("default") = specDefaultCategory
    ∧ pyStartswith p ("GPIO") = true
    ∧ p ∉ i2c_pins ∧ p ∉ adc_pins ∧ p ∉ spi_pins ∧ p ∉ pwm_pins ∧ p ∉ power_pins
    ∧ ("EN") ∉ categoryPins ("default")
    ∧ ("VIN") ∉ categoryPins ("default")
    ∧ ("GND1") ∉ categoryPins ("default") := by
  have hall : ∀ q ∈ categoryPins ("default"),
      pyStartswith q ("GPIO") = true
      ∧ q ∉ i2c_pins ∧ q ∉ adc_pins ∧ q ∉ spi_pins ∧ q ∉ pwm_pins ∧ q ∉ power_pins := by
    decide
  obtain ⟨a1, a2, a3, a4, a5, a6⟩ := hall p hp
  exact ⟨by decide, a1, a2, a3, a4, a5, a6, by decide, by decide, by decide⟩

/-- Witness for C7 at GPIO6. -/
theorem C7_witness :
    categoryPins ("default") = specDefaultCategory
    ∧ pyStartswith ("GPIO6") ("GPIO") = true :=
  ⟨(C7_default_category ("GPIO6") (by decide)).1,
   (C7_default_category ("GPIO6") (by decide)).2.1⟩

/-- C8: both view handlers fully clear the highlight set before rendering
— `show_pin_info` always ends with no highlights, and the highlights after
`show_category_pins` are exactly the buttons of the new category,
independent of whatever was highlighted before, so highlights of two views
never coexist; `_clear_highlights` is idempotent and leaves the highlight
set empty even when it already was. -/
theorem C8_highlight_clearing (s : AppState) (pinId key name : String) (b : Bool) :
    clear_highlights (clear_highlights s) = clear_highlights s
    ∧ (clear_highlights s).highlighted_buttons = []
    ∧ (clear_highlights s).arrow_labels = []
    ∧ (show_pin_info pinId b s).highlighted_buttons = []
    ∧ (show_pin_info pinId b s).arrow_labels = []
    ∧ (show_category_pins key name b s).highlighted_buttons
        = (categoryPins key).filter (fun q => pinPositionKeys.contains q)
    ∧ (show_category_pins key name b s).arrow_labels
        = (categoryPins key).filter (fun q => pinPositionKeys.contains q)
    ∧ (clear_highlights (show_pin_info ("GPIO0") false s)).highlighted_buttons = []
    ∧ (clear_highlights (show_pin_info ("GPIO0") false s)).arrow_labels = [] := by
  refine ⟨rfl, rfl, rfl, ?_, ?_, ?_, ?_, rfl, rfl⟩
  · cases hp : pinsGet pinId <;> cases b <;> simp [show_pin_info, hp]
  · cases hp : pinsGet pinId <;> cases b <;> simp [show_pin_info, hp]
  · cases b <;> simp [show_category_pins]
  · cases b <;> simp [show_category_pins]

/-- C9 counterexample: the dataset has 32 entries with the GPIO prefix,
not 30, so "38 entries comprising 30 GPIO pins plus EN, VIN, 3 GND and
3V3" cannot hold (30 + 6 is not even 38). -/
theorem C9_counterexample :
    (pinsList.filter (fun e => pyStartswith e.1 ("GPIO"))).length = 32
    ∧ ¬ (pinsList.filter (fun e => pyStartswith e.1 ("GPIO"))).length = 30 := by
  decide

/-- C9 (amended): the pin table has exactly 38 distinct-keyed entries: 32
GPIO pins plus EN, VIN, 3V3 and three GND pins. -/
theorem C9_dataset_counts :
    pinsList.length = 38
    ∧ (pinsList.map Prod.fst).Nodup
    ∧ (pinsList.filter (fun e => pyStartswith e.1 ("GPIO"))).length = 32
    ∧ (pinsList.filter (fun e => !(pyStartswith e.1 ("GPIO")))).map Prod.fst
        = ["EN", "VIN", "3V3", "GND2", "GND3", "GND1"] := by
  decide

/-- C10: a direct `show_pin_info` call mutates the history — truncating
the forward branch, appending the pin entry, moving the index to the tail
— and updates both navigation buttons, before the dataset lookup; when the
lookup finds nothing the info panel is left unchanged but the history
mutation has still happened. -/
theorem C10_history_mutated_before_lookup (pinId : String) (s : AppState)
    (hlo : -1 ≤ s.history_index)
    (hhi : s.history_index ≤ (s.pin_history.length : Int) - 1) :
    (show_pin_info pinId false s).pin_history
      = s.pin_history.take (s.history_index + 1).toNat ++ [ViewEntry.pin pinId]
    ∧ (show_pin_info pinId false s).history_index
      = ((show_pin_info pinId false s).pin_history.length : Int) - 1
    ∧ (show_pin_info pinId false s).back_enabled
      = decide (0 < (show_pin_info pinId false s).history_index)
    ∧ (show_pin_info pinId false s).forward_enabled
      = decide ((show_pin_info pinId false s).history_index
          < ((show_pin_info pinId false s).pin_history.length : Int) - 1)
    ∧ (pinsGet pinId = none → (show_pin_info pinId false s).info_panel = s.info_panel) := by
  have hist_eq : (pushHistory (ViewEntry.pin pinId) (clear_highlights s)).pin_history
      = s.pin_history.take (s.history_index + 1).toNat ++ [ViewEntry.pin pinId] := by
    rw [pushHistory_pin_history]
    by_cases hc : s.history_index < (s.pin_history.length : Int) - 1
    · have h0 : (0 : Int) ≤ s.history_index + 1 := by omega
      simp [hc, pySliceTo, h0]
    · have hlen : s.pin_history.length ≤ (s.history_index + 1).toNat := by omega
      simp [hc, List.take_of_length_le hlen]
  have hinv : NavButtonsInv (pushHistory (ViewEntry.pin pinId) (clear_highlights s)) :=
    inv_update _
  cases hp : pinsGet pinId with
  | some p =>
    have hs : show_pin_info pinId false s
        = { pushHistory (ViewEntry.pin pinId) (clear_highlights s) with
            info_panel := some (InfoView.pinView pinId p) } := by
      unfold show_pin_info
      rw [hp]
      rfl
    rw [hs]
    refine ⟨hist_eq, pushHistory_history_index _ _, hinv.1, hinv.2, ?_⟩
    intro hnone
    exact Option.noConfusion hnone
  | none =>
    have hs : show_pin_info pinId false s
        = pushHistory (ViewEntry.pin pinId) (clear_highlights s) := by
      unfold show_pin_info
      rw [hp]
      rfl
    rw [hs]
    exact ⟨hist_eq, pushHistory_history_index _ _, hinv.1, hinv.2,
      fun _ => pushHistory_info_panel _ _⟩

/-- Witness for C10 at the absent id GPIO99 from the initial state. -/
theorem C10_witness :
    (show_pin_info ("GPIO99") false initState).pin_history = [ViewEntry.pin ("GPIO99")]
    ∧ (show_pin_info ("GPIO99") false initState).info_panel = initState.info_panel := by
  have h := C10_history_mutated_before_lookup ("GPIO99") initState (by decide) (by decide)
  exact ⟨by simpa using h.1, h.2.2.2.2 (by decide)⟩

end ESPPinout
